import Mathlib

/-!
Shallow embedding of the jupyter-slide-nav extension core
(`src/extension.ts`): slide-type metadata extraction, slide-index
construction, navigation, and the spacer-cell lifecycle
(insert / remove / toggle / save round-trip / orphan recovery).

Cell metadata is modelled as a JSON-like value (`JVal`); notebook
documents are lists of cells; the host's atomic edit batches are
modelled by explicit list insertion/deletion applied in the order the
source pushes the edits (bottom-to-top, as the source comments state).
-/

namespace JupyterSlideNav

/-- A JSON-like metadata value, standing for the untyped metadata bags
that TypeScript accesses through `Record<string, unknown>` casts. -/
inductive JVal where
  | str (s : String)
  | bool (b : Bool)
  | num (n : Int)
  | obj (fields : List (String × JVal))
  | null

/-- Property lookup `v[k]`: yields the field value when `v` is an object
that has the key, and `none` (JS `undefined`) otherwise — indexing a
non-object primitive with these keys yields `undefined` in JS. -/
def objGet : JVal → String → Option JVal
  | .obj fields, k => (fields.find? (fun p => p.1 == k)).map (fun p => p.2)
  | _, _ => none

/-- JS truthiness of a metadata value (`if (x)`). -/
def truthy : JVal → Bool
  | .str s => !(s == "")
  | .bool b => b
  | .num n => !(n == 0)
  | .obj _ => true
  | .null => false

/-- The `typeof x === "string"` guard: extract the string payload, if any. -/
def strVal : Option JVal → Option String
  | some (.str s) => some s
  | _ => none

/-- The `SlideType` union of the source, kept as a `String` so that
malformed metadata values flow through unchanged (the TS cast
`as SlideType` is a no-op at runtime). -/
def closedSlideTypes : List String :=
  ["slide", "subslide", "fragment", "skip", "notes", "-"]

/-- Which of the two module-level target-set constants a command passed
(`SLIDE_TYPES` vs `FRAGMENT_TYPES`); the source compares them by
reference (`targets === SLIDE_TYPES`). -/
inductive TargetSet where
  | slideTargets
  | fragmentTargets
deriving DecidableEq, Repr

/-- The member types of each target set constant. -/
def TargetSet.types : TargetSet → List String
  | .slideTargets => ["slide", "subslide"]
  | .fragmentTargets => ["slide", "subslide", "fragment"]

/-- Cell kind (`vscode.NotebookCellKind`). -/
inductive CellKind where
  | markup
  | code
deriving DecidableEq, Repr

/-- A notebook cell: kind, source text, language, and its metadata bag
(`undefined` modelled as `none`). -/
structure Cell where
  kind : CellKind
  content : String
  language : String
  metadata : Option JVal

/-- A notebook document is its ordered cell list. -/
abbrev Notebook := List Cell

-- ---------------------------------------------------------------------
-- Spacer cells (extension.ts lines 29-59)
-- ---------------------------------------------------------------------

/-- Source `isSpacerCell`: a cell is a spacer iff
`cell.metadata.jupyterSlideNav.spacer === true` (extension.ts 30-39). -/
def isSpacerCell (c : Cell) : Bool :=
  match c.metadata with
  | none => false
  | some m =>
    match objGet m "jupyterSlideNav" with
    | some marker =>
      match objGet marker "spacer" with
      | some (.bool true) => true
      | _ => false
    | none => false

/-- Source `createSpacerCellData`: a markdown cell of `lines` `&nbsp;`
paragraphs joined by blank lines, tagged with the spacer marker and a
`skip` slide type (extension.ts 42-59). -/
def createSpacerCellData (lines : Nat) : Cell :=
  { kind := .markup,
    content := String.intercalate "\n\n" (List.replicate lines "&nbsp;"),
    language := "markdown",
    metadata := some (.obj
      [("jupyterSlideNav", .obj [("spacer", .bool true)]),
       ("metadata", .obj [("slideshow", .obj [("slide_type", .str "skip")])])]) }

-- ---------------------------------------------------------------------
-- Metadata extraction (extension.ts lines 75-122)
-- ---------------------------------------------------------------------

/-- Source shape (1): `meta["metadata"]`, truthiness-guarded, then
`["slideshow"]`, truthiness-guarded, then a string `["slide_type"]`
(extension.ts 82-90). -/
def srcShape1 (m : JVal) : Option String :=
  match objGet m "metadata" with
  | some inner =>
    if truthy inner then
      match objGet inner "slideshow" with
      | some ss => if truthy ss then strVal (objGet ss "slide_type") else none
      | none => none
    else none
  | none => none

/-- Source shape (2): legacy `meta["custom"]["metadata"]["slideshow"]
["slide_type"]`, each step truthiness-guarded (extension.ts 93-106). -/
def srcShape2 (m : JVal) : Option String :=
  match objGet m "custom" with
  | some custom =>
    if truthy custom then
      match objGet custom "metadata" with
      | some customMeta =>
        if truthy customMeta then
          match objGet customMeta "slideshow" with
          | some ss => if truthy ss then strVal (objGet ss "slide_type") else none
          | none => none
        else none
      | none => none
    else none
  | none => none

/-- Source shape (3): direct `meta["slideshow"]["slide_type"]`
(extension.ts 109-114). -/
def srcShape3 (m : JVal) : Option String :=
  match objGet m "slideshow" with
  | some ss => if truthy ss then strVal (objGet ss "slide_type") else none
  | none => none

/-- Source shape (4): flattened top-level `meta["slide_type"]`
(extension.ts 117-119). -/
def srcShape4 (m : JVal) : Option String :=
  strVal (objGet m "slide_type")

/-- Source `getSlideType` (extension.ts 75-122): `undefined` metadata yields
`undefined`; otherwise the four shapes are tried in order, each
early-returning the first string found. -/
def getSlideType (meta : Option JVal) : Option String :=
  match meta with
  | none => none
  | some m => srcShape1 m <|> srcShape2 m <|> srcShape3 m <|> srcShape4 m

/-- Modelled from the spec: shape (1), a nested
`metadata.slideshow.slide_type` string field (no truthiness guards are
mentioned by the spec). -/
def specShape1 (m : JVal) : Option String :=
  match objGet m "metadata" with
  | some inner =>
    match objGet inner "slideshow" with
    | some ss => strVal (objGet ss "slide_type")
    | none => none
  | none => none

/-- Modelled from the spec: shape (2), a legacy nested
`custom.metadata.slideshow.slide_type`. -/
def specShape2 (m : JVal) : Option String :=
  match objGet m "custom" with
  | some custom =>
    match objGet custom "metadata" with
    | some customMeta =>
      match objGet customMeta "slideshow" with
      | some ss => strVal (objGet ss "slide_type")
      | none => none
    | none => none
  | none => none

/-- Modelled from the spec: shape (3), a direct `slideshow.slide_type`. -/
def specShape3 (m : JVal) : Option String :=
  match objGet m "slideshow" with
  | some ss => strVal (objGet ss "slide_type")
  | none => none

/-- Modelled from the spec: shape (4), a flattened top-level
`slide_type` string. -/
def specShape4 (m : JVal) : Option String :=
  strVal (objGet m "slide_type")

-- ---------------------------------------------------------------------
-- Slide index (extension.ts lines 128-184)
-- ---------------------------------------------------------------------

/-- The source `interface SlideIndex`: a cell position plus its 1-based slide
number. -/
structure SlideIndex where
  cellIndex : Nat
  slideNumber : Nat
deriving DecidableEq, Repr

/-- The extension configuration values read by the core
(`jupyterSlideNav.*` settings with their defaults). -/
structure Config where
  skipCellTypes : List String
  includeSubslides : Bool
  slideViewSpacerLines : Nat

/-- The configuration defaults (`skipCellTypes = []`,
`includeSubslides = true`, `slideViewSpacerLines = 40`). -/
def defaultConfig : Config :=
  { skipCellTypes := [], includeSubslides := true, slideViewSpacerLines := 40 }

/-- The clamp `slideNumber || 1` (extension.ts 179): JS `||` replaces the only
falsy number `0` by `1`. -/
def clampOne (n : Nat) : Nat :=
  if n = 0 then 1 else n

/-- The loop body of `buildSlideIndex` (extension.ts 156-181): walk the
cells from position `i` carrying the running `slideNumber` counter.
`!slideType || slideType === "-"` is the `st = "" ∨ st = "-"` test
(the empty string is the only falsy string). `slideNumber || 1` is the
`clampOne` of the (possibly just incremented) counter. -/
def buildSlideIndexAux (targets : TargetSet) (cfg : Config) :
    List Cell → Nat → Nat → List SlideIndex
  | [], _, _ => []
  | c :: rest, i, slideNumber =>
    if isSpacerCell c then
      buildSlideIndexAux targets cfg rest (i + 1) slideNumber
    else
      match getSlideType c.metadata with
      | none => buildSlideIndexAux targets cfg rest (i + 1) slideNumber
      | some st =>
        if st = "" ∨ st = "-" then
          buildSlideIndexAux targets cfg rest (i + 1) slideNumber
        else if st ∈ cfg.skipCellTypes then
          buildSlideIndexAux targets cfg rest (i + 1) slideNumber
        else if targets = TargetSet.slideTargets ∧ cfg.includeSubslides = false ∧
            st = "subslide" then
          buildSlideIndexAux targets cfg rest (i + 1) slideNumber
        else if st ∈ targets.types then
          ⟨i, clampOne (if st = "slide" ∨ st = "subslide" then slideNumber + 1
                        else slideNumber)⟩ ::
            buildSlideIndexAux targets cfg rest (i + 1)
              (if st = "slide" ∨ st = "subslide" then slideNumber + 1 else slideNumber)
        else
          buildSlideIndexAux targets cfg rest (i + 1) slideNumber

/-- Source `buildSlideIndex` (extension.ts 143-184). -/
def buildSlideIndex (nb : Notebook) (targets : TargetSet) (cfg : Config) :
    List SlideIndex :=
  buildSlideIndexAux targets cfg nb 0 0

/-- A cell that survives every filter of the `buildSlideIndex` loop and
increments the running slide counter (a retained slide/subslide
boundary); branch structure mirrors `buildSlideIndexAux`. -/
def isRetainedBoundary (targets : TargetSet) (cfg : Config) (c : Cell) : Bool :=
  if isSpacerCell c then false
  else
    match getSlideType c.metadata with
    | none => false
    | some st =>
      if st = "" ∨ st = "-" then false
      else if st ∈ cfg.skipCellTypes then false
      else if targets = TargetSet.slideTargets ∧ cfg.includeSubslides = false ∧
          st = "subslide" then false
      else if st ∈ targets.types then
        decide (st = "slide" ∨ st = "subslide")
      else false

-- ---------------------------------------------------------------------
-- Navigation (extension.ts lines 205-274)
-- ---------------------------------------------------------------------

/-- The `prevSlide` backwards loop (extension.ts 261-266): first match
scanning from the end, i.e. the last match in list order. -/
def findFromEnd (p : SlideIndex → Bool) : List SlideIndex → Option SlideIndex
  | [] => none
  | a :: rest =>
    match findFromEnd p rest with
    | some b => some b
    | none => if p a then some a else none

/-- Source `nextSlide` (extension.ts 216-240) as a selection transformer: the
target cell of the jump, or `none` when the index is empty or the
current cell is already at/after the last entry (an informational
message, no navigation). -/
def nextSlidePos (targets : TargetSet) (cfg : Config) (nb : Notebook)
    (current : Nat) : Option Nat :=
  let index := buildSlideIndex nb targets cfg
  if index.length = 0 then none
  else ((index.find? (fun s => current < s.cellIndex)).map (fun s => s.cellIndex))

/-- Source `prevSlide` (extension.ts 242-274) as a selection transformer. -/
def prevSlidePos (targets : TargetSet) (cfg : Config) (nb : Notebook)
    (current : Nat) : Option Nat :=
  let index := buildSlideIndex nb targets cfg
  if index.length = 0 then none
  else ((findFromEnd (fun s => s.cellIndex < current) index).map (fun s => s.cellIndex))

/-- Net effect of `nextSlide` on the selection: move to the target, or
stay put on the informational no-op paths. -/
def advanceSel (targets : TargetSet) (cfg : Config) (nb : Notebook)
    (current : Nat) : Nat :=
  (nextSlidePos targets cfg nb current).getD current

/-- Net effect of `prevSlide` on the selection. -/
def retreatSel (targets : TargetSet) (cfg : Config) (nb : Notebook)
    (current : Nat) : Nat :=
  (prevSlidePos targets cfg nb current).getD current

-- ---------------------------------------------------------------------
-- Spacer lifecycle (extension.ts lines 402-473, 519-538, 554-568)
-- ---------------------------------------------------------------------

/-- One `NotebookEdit.insertCells(p, [c])` applied to the document: insert
`c` before position `p` (clamped to the end, as the host does). -/
def insertCellAt (c : Cell) : Nat → List Cell → List Cell
  | 0, l => c :: l
  | _ + 1, [] => [c]
  | n + 1, x :: xs => x :: insertCellAt c n xs

/-- Source `insertSpacers` (extension.ts 402-426): build the slide-granularity
index; if it has at most one entry do nothing; otherwise insert one
spacer cell at each entry position except the first, pushing the edits
from the last entry down to entry 1 and applying them in that order
(bottom-to-top, "so that earlier indices remain valid"). -/
def insertSpacers (cfg : Config) (nb : Notebook) : Notebook :=
  let lines := cfg.slideViewSpacerLines
  let index := buildSlideIndex nb TargetSet.slideTargets cfg
  if index.length ≤ 1 then nb
  else
    ((index.drop 1).map (fun s => s.cellIndex)).foldr
      (fun p d => insertCellAt (createSpacerCellData lines) p d) nb

/-- Source `removeSpacers` (extension.ts 432-450): delete every spacer cell
(single-cell delete ranges collected bottom-to-top equal a filter). -/
def removeSpacers (nb : Notebook) : Notebook :=
  nb.filter (fun c => !(isSpacerCell c))

/-- Per-document slide-view state: the document plus its
`slideViewState` entry (`undefined` read as `false` via `?? false`). -/
structure ViewState where
  doc : Notebook
  spacerActive : Bool

/-- Source `toggleSlideView` (extension.ts 453-473), document/flag effect only
(status-bar refresh and the `firstSlide` jump touch no cells). -/
def toggleSlideView (cfg : Config) (s : ViewState) : ViewState :=
  if s.spacerActive then
    { doc := removeSpacers s.doc, spacerActive := false }
  else
    { doc := insertSpacers cfg s.doc, spacerActive := true }

/-- Per-document save-window state: the document, its `slideViewState`
flag, and its `slideViewPendingReinsert` membership. -/
structure SaveState where
  doc : Notebook
  active : Bool
  pending : Bool

/-- The `onWillSaveNotebookDocument` handler (extension.ts 519-527): when
slide view is active, mark the document pending and remove all spacers
before the save proceeds (`e.waitUntil`). The persisted bytes are the
resulting `doc`. -/
def willSave (s : SaveState) : SaveState :=
  if s.active then
    { doc := removeSpacers s.doc, active := s.active, pending := true }
  else s

/-- The `onDidSaveNotebookDocument` handler (extension.ts 530-538): if
pending, clear the mark and re-insert spacers by a full rebuild. -/
def didSave (cfg : Config) (s : SaveState) : SaveState :=
  if s.pending then
    { doc := insertSpacers cfg s.doc, active := s.active, pending := false }
  else s

/-- Outcome of the host's `workspace.applyEdit` promise for one atomic
edit batch: resolved `true` (edits applied), resolved `false` (the
collaborator rejected the batch; nothing applied, no exception), or
rejected (an exception is thrown at the `await`). -/
inductive EditResult where
  | ok
  | failed
  | threw
deriving DecidableEq, Repr

/-- Source `insertSpacers` with the `applyEdit` outcome made explicit: the
source `await`s the promise but never reads its boolean result, so a
`failed` batch leaves the document unchanged yet returns normally,
while `threw` propagates to the caller. When the index has at most one
entry no edit is issued at all. -/
def insertSpacersTry (cfg : Config) (r : EditResult) (nb : Notebook) :
    Except Unit Notebook :=
  let index := buildSlideIndex nb TargetSet.slideTargets cfg
  if index.length ≤ 1 then Except.ok nb
  else
    match r with
    | .ok => Except.ok (insertSpacers cfg nb)
    | .failed => Except.ok nb
    | .threw => Except.error ()

/-- Source `removeSpacers` with the `applyEdit` outcome made explicit: when no
spacer cell exists the deletion list is empty and no edit is issued. -/
def removeSpacersTry (r : EditResult) (nb : Notebook) :
    Except Unit Notebook :=
  if nb.all (fun c => !(isSpacerCell c)) then Except.ok nb
  else
    match r with
    | .ok => Except.ok (removeSpacers nb)
    | .failed => Except.ok nb
    | .threw => Except.error ()

/-- Source `toggleSlideView` with the edit outcome made explicit: the
`slideViewState.set` calls run only when the awaited lifecycle
operation returns normally; an `error` result means the handler aborted
before flipping the flag, leaving the stored `ViewState` unchanged. -/
def toggleSlideViewTry (cfg : Config) (r : EditResult) (s : ViewState) :
    Except Unit ViewState :=
  if s.spacerActive then
    match removeSpacersTry r s.doc with
    | .ok d => Except.ok { doc := d, spacerActive := false }
    | .error e => Except.error e
  else
    match insertSpacersTry cfg r s.doc with
    | .ok d => Except.ok { doc := d, spacerActive := true }
    | .error e => Except.error e

/-- The orphan-cleanup block at the end of `activate`
(extension.ts 554-568): scan the active notebook for spacer-marked
cells and, if any is found, remove them all — without consulting
`slideViewState` (which is empty at activation). -/
def activationOrphanScan (nb : Notebook) : Notebook :=
  if nb.any (fun c => isSpacerCell c) then removeSpacers nb else nb

/-- Document effect of the `onDidChangeActiveNotebookEditor` handler
(extension.ts 502-510): it only calls `refreshStatusBarForSelection`,
which issues no notebook edit, so the document is unchanged. -/
def activeEditorChangedDocEffect (nb : Notebook) : Notebook := nb

-- ---------------------------------------------------------------------
-- Concrete cells and documents for examples
-- ---------------------------------------------------------------------

/-- A cell whose metadata carries `slide_type` `st` in the primary
(shape 1) position. -/
def mkTypedCell (st : String) : Cell :=
  { kind := .markup,
    content := "# " ++ st,
    language := "markdown",
    metadata := some (.obj
      [("metadata", .obj [("slideshow", .obj [("slide_type", .str st)])])]) }

/-- A cell with no metadata at all. -/
def plainCell : Cell :=
  { kind := .code, content := "x = 1", language := "python", metadata := none }

/-- A two-slide notebook. -/
def twoSlideDoc : Notebook :=
  [mkTypedCell "slide", mkTypedCell "slide"]

/-- A one-slide notebook. -/
def oneSlideDoc : Notebook :=
  [mkTypedCell "slide", plainCell]

/-- The spec's worked example: cells typed
`[slide, fragment, subslide, skip, slide]`. -/
def fiveCellDoc : Notebook :=
  [mkTypedCell "slide", mkTypedCell "fragment", mkTypedCell "subslide",
   mkTypedCell "skip", mkTypedCell "slide"]

/-- A cell carrying a malformed slide type. -/
def bananaCell : Cell := mkTypedCell "banana"

/-- A document whose two slides sit at positions 0 and 5. -/
def gappedDoc : Notebook :=
  [mkTypedCell "slide", plainCell, plainCell, plainCell, plainCell,
   mkTypedCell "slide"]

/-- A document holding an orphaned spacer cell and a user slide. -/
def orphanDoc : Notebook :=
  [createSpacerCellData 2, mkTypedCell "slide"]

-- ---------------------------------------------------------------------
-- Metadata-reader lemmas
-- ---------------------------------------------------------------------

/-- A falsy metadata value is never an object, so property lookup on it
yields `undefined`. -/
lemma objGet_of_not_truthy (v : JVal) (k : String) (h : truthy v = false) :
    objGet v k = none := by
  cases v <;> simp_all [truthy, objGet]

lemma srcShape1_eq_specShape1 (m : JVal) : srcShape1 m = specShape1 m := by
  unfold srcShape1 specShape1
  cases hm : objGet m "metadata" with
  | none => rfl
  | some inner =>
    by_cases hi : truthy inner
    · simp only [hi, if_true]
      cases hs : objGet inner "slideshow" with
      | none => rfl
      | some ss =>
        by_cases ht : truthy ss
        · simp [ht]
        · simp [ht, objGet_of_not_truthy ss _ (by simp [ht]), strVal]
    · simp only [Bool.not_eq_true] at hi
      simp [hi, objGet_of_not_truthy inner _ hi]

lemma srcShape2_eq_specShape2 (m : JVal) : srcShape2 m = specShape2 m := by
  unfold srcShape2 specShape2
  cases hm : objGet m "custom" with
  | none => rfl
  | some custom =>
    by_cases hc : truthy custom
    · simp only [hc, if_true]
      cases hcm : objGet custom "metadata" with
      | none => rfl
      | some customMeta =>
        by_cases hi : truthy customMeta
        · simp only [hi, if_true]
          cases hs : objGet customMeta "slideshow" with
          | none => rfl
          | some ss =>
            by_cases ht : truthy ss
            · simp [ht]
            · simp [ht, objGet_of_not_truthy ss _ (by simp [ht]), strVal]
        · simp only [Bool.not_eq_true] at hi
          simp [hi, objGet_of_not_truthy customMeta _ hi]
    · simp only [Bool.not_eq_true] at hc
      simp [hc, objGet_of_not_truthy custom _ hc]

lemma srcShape3_eq_specShape3 (m : JVal) : srcShape3 m = specShape3 m := by
  unfold srcShape3 specShape3
  cases hs : objGet m "slideshow" with
  | none => rfl
  | some ss =>
    by_cases ht : truthy ss
    · simp [ht]
    · simp [ht, objGet_of_not_truthy ss _ (by simp [ht]), strVal]

lemma srcShape4_eq_specShape4 (m : JVal) : srcShape4 m = specShape4 m := rfl

/-- The member types of either target set lie in the closed `SlideType`
enumeration. -/
lemma types_subset_closed (t : TargetSet) (s : String) (h : s ∈ t.types) :
    s ∈ closedSlideTypes := by
  cases t <;> simp [TargetSet.types, closedSlideTypes] at h ⊢ <;> tauto

/-- A cell whose extracted slide type falls outside the closed
enumeration contributes nothing to the index: no entry, no ordinal
increment, the scan just moves on. -/
lemma buildSlideIndexAux_malformed (t : TargetSet) (cfg : Config) (c : Cell)
    (rest : List Cell) (i n : Nat) (s : String)
    (hst : getSlideType c.metadata = some s) (hmal : s ∉ closedSlideTypes) :
    buildSlideIndexAux t cfg (c :: rest) i n =
      buildSlideIndexAux t cfg rest (i + 1) n := by
  conv_lhs => rw [buildSlideIndexAux]
  by_cases hsp : isSpacerCell c
  · simp [hsp]
  · simp only [hsp, Bool.false_eq_true, if_false, hst]
    by_cases h1 : s = "" ∨ s = "-"
    · simp [h1]
    · have hdash : s ∉ closedSlideTypes := hmal
      simp only [h1, if_false]
      by_cases h2 : s ∈ cfg.skipCellTypes
      · simp [h2]
      · simp only [h2, if_false]
        have hsub : ¬(t = TargetSet.slideTargets ∧ cfg.includeSubslides = false ∧
            s = "subslide") := by
          rintro ⟨-, -, rfl⟩
          exact hmal (by simp [closedSlideTypes])
        simp only [hsub, if_false]
        have hty : s ∉ t.types := fun h => hmal (types_subset_closed t s h)
        simp [hty]

-- ---------------------------------------------------------------------
-- C8
-- ---------------------------------------------------------------------

/-- C8: the metadata reader tries the four storage shapes in the fixed
order (1) `metadata.slideshow.slide_type`, (2)
`custom.metadata.slideshow.slide_type`, (3) `slideshow.slide_type`,
(4) top-level `slide_type`, returning the first string found (the
source's truthiness guards are redundant, so the early-return chain
equals the guard-free first-match chain over the spec's shapes); it
returns `none` when the cell has no metadata; and a malformed slide
type outside the closed enumeration produces no index entry and leaves
the ordinal counter untouched. The reader is a total Lean function, so
it cannot throw. -/
theorem getSlideType_shape_order :
    getSlideType none = none ∧
    (∀ m : JVal, getSlideType (some m) =
      (specShape1 m <|> specShape2 m <|> specShape3 m <|> specShape4 m)) ∧
    (∀ (t : TargetSet) (cfg : Config) (c : Cell) (rest : List Cell) (i n : Nat)
        (s : String), getSlideType c.metadata = some s → s ∉ closedSlideTypes →
      buildSlideIndexAux t cfg (c :: rest) i n =
        buildSlideIndexAux t cfg rest (i + 1) n) := by
  refine ⟨rfl, ?_, ?_⟩
  · intro m
    simp only [getSlideType, srcShape1_eq_specShape1, srcShape2_eq_specShape2,
      srcShape3_eq_specShape3, srcShape4_eq_specShape4]
  · intro t cfg c rest i n s hst hmal
    exact buildSlideIndexAux_malformed t cfg c rest i n s hst hmal

/-- C8 witness: a cell typed `"banana"` is ignored by the index builder
at a concrete input. -/
theorem getSlideType_shape_order_witness :
    buildSlideIndexAux TargetSet.slideTargets defaultConfig
        (bananaCell :: [mkTypedCell "slide"]) 0 0 =
      buildSlideIndexAux TargetSet.slideTargets defaultConfig
        [mkTypedCell "slide"] 1 0 :=
  getSlideType_shape_order.2.2 TargetSet.slideTargets defaultConfig bananaCell
    [mkTypedCell "slide"] 0 0 "banana" (by decide) (by decide)

-- ---------------------------------------------------------------------
-- Slide-index structural lemmas
-- ---------------------------------------------------------------------

lemma clampOne_mono {a b : Nat} (h : a ≤ b) : clampOne a ≤ clampOne b := by
  unfold clampOne
  split <;> split <;> omega

/-- Scan equation: a spacer cell is skipped. -/
lemma aux_cons_spacer {t : TargetSet} {cfg : Config} {c : Cell}
    {rest : List Cell} {i n : Nat} (hsp : isSpacerCell c = true) :
    buildSlideIndexAux t cfg (c :: rest) i n =
      buildSlideIndexAux t cfg rest (i + 1) n := by
  rw [buildSlideIndexAux]
  simp [hsp]

/-- Scan equation: a cell with no slide type is skipped. -/
lemma aux_cons_none {t : TargetSet} {cfg : Config} {c : Cell}
    {rest : List Cell} {i n : Nat} (hsp : isSpacerCell c = false)
    (hst : getSlideType c.metadata = none) :
    buildSlideIndexAux t cfg (c :: rest) i n =
      buildSlideIndexAux t cfg rest (i + 1) n := by
  rw [buildSlideIndexAux]
  simp [hsp, hst]

/-- Scan equation: a typed cell filtered out by any of the skip rules
produces no entry and leaves the counter unchanged. -/
lemma aux_cons_skip {t : TargetSet} {cfg : Config} {c : Cell}
    {rest : List Cell} {i n : Nat} {st : String}
    (hsp : isSpacerCell c = false) (hst : getSlideType c.metadata = some st)
    (hskip : (st = "" ∨ st = "-") ∨ st ∈ cfg.skipCellTypes ∨
      (t = TargetSet.slideTargets ∧ cfg.includeSubslides = false ∧ st = "subslide") ∨
      st ∉ t.types) :
    buildSlideIndexAux t cfg (c :: rest) i n =
      buildSlideIndexAux t cfg rest (i + 1) n := by
  rw [buildSlideIndexAux]
  simp only [hsp, Bool.false_eq_true, if_false, hst]
  split_ifs <;> first | rfl | tauto

/-- Scan equation: a retained target cell is pushed with the clamped
(possibly incremented) counter. -/
lemma aux_cons_push {t : TargetSet} {cfg : Config} {c : Cell}
    {rest : List Cell} {i n : Nat} {st : String}
    (hsp : isSpacerCell c = false) (hst : getSlideType c.metadata = some st)
    (h1 : ¬(st = "" ∨ st = "-")) (h2 : st ∉ cfg.skipCellTypes)
    (h3 : ¬(t = TargetSet.slideTargets ∧ cfg.includeSubslides = false ∧
      st = "subslide"))
    (h4 : st ∈ t.types) :
    buildSlideIndexAux t cfg (c :: rest) i n =
      ⟨i, clampOne (if st = "slide" ∨ st = "subslide" then n + 1 else n)⟩ ::
        buildSlideIndexAux t cfg rest (i + 1)
          (if st = "slide" ∨ st = "subslide" then n + 1 else n) := by
  rw [buildSlideIndexAux]
  simp [hsp, hst, h1, h2, h3, h4]

/-- What membership in the index scan started at position `i` with
counter `n` guarantees about an entry. -/
def EntrySpec (t : TargetSet) (cfg : Config) (l : List Cell) (i n : Nat)
    (e : SlideIndex) : Prop :=
  ∃ j c, l.get? j = some c ∧ e.cellIndex = i + j ∧ isSpacerCell c = false ∧
    (∃ st, getSlideType c.metadata = some st ∧ st ∈ t.types) ∧
    e.slideNumber =
      clampOne (n + (l.take (j + 1)).countP (isRetainedBoundary t cfg))

lemma entrySpec_cons_skip {t : TargetSet} {cfg : Config} {c : Cell}
    {rest : List Cell} {i n : Nat} {e : SlideIndex}
    (hpc : isRetainedBoundary t cfg c = false)
    (h : EntrySpec t cfg rest (i + 1) n e) : EntrySpec t cfg (c :: rest) i n e := by
  obtain ⟨j, c', hget, hidx, hsp, hty, hord⟩ := h
  refine ⟨j + 1, c', by simpa using hget, by omega, hsp, hty, ?_⟩
  simpa [List.take_succ_cons, List.countP_cons, hpc] using hord

lemma entrySpec_cons_inc {t : TargetSet} {cfg : Config} {c : Cell}
    {rest : List Cell} {i n : Nat} {e : SlideIndex}
    (hpc : isRetainedBoundary t cfg c = true)
    (h : EntrySpec t cfg rest (i + 1) (n + 1) e) :
    EntrySpec t cfg (c :: rest) i n e := by
  obtain ⟨j, c', hget, hidx, hsp, hty, hord⟩ := h
  refine ⟨j + 1, c', by simpa using hget, by omega, hsp, hty, ?_⟩
  rw [hord]
  have : ((c :: rest).take (j + 1 + 1)).countP (isRetainedBoundary t cfg)
      = (rest.take (j + 1)).countP (isRetainedBoundary t cfg) + 1 := by
    simp [List.take_succ_cons, List.countP_cons, hpc]
  rw [this]
  congr 1
  omega

/-- Every index entry stems from a retained non-spacer cell of the
scanned list, and its ordinal is the clamped running count of retained
slide/subslide boundaries through that cell. -/
lemma buildSlideIndexAux_mem (t : TargetSet) (cfg : Config) :
    ∀ (l : List Cell) (i n : Nat) (e : SlideIndex),
      e ∈ buildSlideIndexAux t cfg l i n → EntrySpec t cfg l i n e
  | [], i, n, e, h => by simp [buildSlideIndexAux] at h
  | c :: rest, i, n, e, h => by
    by_cases hsp : isSpacerCell c
    · rw [aux_cons_spacer hsp] at h
      exact entrySpec_cons_skip (by simp [isRetainedBoundary, hsp])
        (buildSlideIndexAux_mem t cfg rest (i + 1) n e h)
    · have hsp' : isSpacerCell c = false := by simpa using hsp
      cases hst : getSlideType c.metadata with
      | none =>
        rw [aux_cons_none hsp' hst] at h
        exact entrySpec_cons_skip (by simp [isRetainedBoundary, hsp', hst])
          (buildSlideIndexAux_mem t cfg rest (i + 1) n e h)
      | some st =>
        by_cases h1 : st = "" ∨ st = "-"
        · rw [aux_cons_skip hsp' hst (Or.inl h1)] at h
          exact entrySpec_cons_skip (by simp [isRetainedBoundary, hsp', hst, h1])
            (buildSlideIndexAux_mem t cfg rest (i + 1) n e h)
        · by_cases h2 : st ∈ cfg.skipCellTypes
          · rw [aux_cons_skip hsp' hst (Or.inr (Or.inl h2))] at h
            exact entrySpec_cons_skip
              (by simp [isRetainedBoundary, hsp', hst, h1, h2])
              (buildSlideIndexAux_mem t cfg rest (i + 1) n e h)
          · by_cases h3 : t = TargetSet.slideTargets ∧ cfg.includeSubslides = false ∧
                st = "subslide"
            · rw [aux_cons_skip hsp' hst (Or.inr (Or.inr (Or.inl h3)))] at h
              exact entrySpec_cons_skip
                (by simp [isRetainedBoundary, hsp', hst, h1, h2, h3])
                (buildSlideIndexAux_mem t cfg rest (i + 1) n e h)
            · by_cases h4 : st ∈ t.types
              · rw [aux_cons_push hsp' hst h1 h2 h3 h4] at h
                have hP : isRetainedBoundary t cfg c =
                    decide (st = "slide" ∨ st = "subslide") := by
                  simp [isRetainedBoundary, hsp', hst, h1, h2, h3, h4]
                rcases List.mem_cons.mp h with he | htail
                · subst he
                  refine ⟨0, c, rfl, rfl, hsp', ⟨st, hst, h4⟩, ?_⟩
                  by_cases hb : st = "slide" ∨ st = "subslide"
                  · simp [hb, List.countP_cons, hP]
                  · simp [hb, List.countP_cons, hP]
                · by_cases hb : st = "slide" ∨ st = "subslide"
                  · rw [if_pos hb] at htail
                    refine entrySpec_cons_inc (by simp [hP, hb]) ?_
                    exact buildSlideIndexAux_mem t cfg rest (i + 1) (n + 1) e htail
                  · rw [if_neg hb] at htail
                    refine entrySpec_cons_skip (by simp [hP, hb]) ?_
                    exact buildSlideIndexAux_mem t cfg rest (i + 1) n e htail
              · rw [aux_cons_skip hsp' hst (Or.inr (Or.inr (Or.inr h4)))] at h
                exact entrySpec_cons_skip
                  (by simp [isRetainedBoundary, hsp', hst, h1, h2, h3, h4])
                  (buildSlideIndexAux_mem t cfg rest (i + 1) n e h)

/-- Positions are strictly increasing and ordinals non-decreasing along
the scan. -/
lemma buildSlideIndexAux_sorted (t : TargetSet) (cfg : Config) :
    ∀ (l : List Cell) (i n : Nat),
      (buildSlideIndexAux t cfg l i n).Pairwise
        (fun a b => a.cellIndex < b.cellIndex ∧ a.slideNumber ≤ b.slideNumber)
  | [], _, _ => by simp [buildSlideIndexAux]
  | c :: rest, i, n => by
    by_cases hsp : isSpacerCell c
    · rw [aux_cons_spacer hsp]
      exact buildSlideIndexAux_sorted t cfg rest (i + 1) n
    · have hsp' : isSpacerCell c = false := by simpa using hsp
      cases hst : getSlideType c.metadata with
      | none =>
        rw [aux_cons_none hsp' hst]
        exact buildSlideIndexAux_sorted t cfg rest (i + 1) n
      | some st =>
        by_cases h1 : st = "" ∨ st = "-"
        · rw [aux_cons_skip hsp' hst (Or.inl h1)]
          exact buildSlideIndexAux_sorted t cfg rest (i + 1) n
        · by_cases h2 : st ∈ cfg.skipCellTypes
          · rw [aux_cons_skip hsp' hst (Or.inr (Or.inl h2))]
            exact buildSlideIndexAux_sorted t cfg rest (i + 1) n
          · by_cases h3 : t = TargetSet.slideTargets ∧ cfg.includeSubslides = false ∧
                st = "subslide"
            · rw [aux_cons_skip hsp' hst (Or.inr (Or.inr (Or.inl h3)))]
              exact buildSlideIndexAux_sorted t cfg rest (i + 1) n
            · by_cases h4 : st ∈ t.types
              · rw [aux_cons_push hsp' hst h1 h2 h3 h4]
                refine List.Pairwise.cons ?_
                  (buildSlideIndexAux_sorted t cfg rest (i + 1) _)
                intro b hb
                obtain ⟨j, c', hget, hidx, -, -, hord⟩ :=
                  buildSlideIndexAux_mem t cfg rest (i + 1) _ b hb
                refine ⟨by simp only []; omega, ?_⟩
                rw [hord]
                exact clampOne_mono (Nat.le_add_right _ _)
              · rw [aux_cons_skip hsp' hst (Or.inr (Or.inr (Or.inr h4)))]
                exact buildSlideIndexAux_sorted t cfg rest (i + 1) n

-- ---------------------------------------------------------------------
-- C6
-- ---------------------------------------------------------------------

/-- C6: for every document, target set and configuration, the slide
index has strictly increasing positions, monotonically non-decreasing
ordinals, and every entry points at a non-spacer cell of the document
whose extracted slide type lies in the target set. -/
theorem buildSlideIndex_invariants (nb : Notebook) (t : TargetSet) (cfg : Config) :
    (buildSlideIndex nb t cfg).Pairwise (fun a b => a.cellIndex < b.cellIndex) ∧
    (buildSlideIndex nb t cfg).Pairwise (fun a b => a.slideNumber ≤ b.slideNumber) ∧
    ∀ e ∈ buildSlideIndex nb t cfg, ∃ c, nb.get? e.cellIndex = some c ∧
      isSpacerCell c = false ∧
      ∃ st, getSlideType c.metadata = some st ∧ st ∈ t.types := by
  refine ⟨?_, ?_, ?_⟩
  · exact (buildSlideIndexAux_sorted t cfg nb 0 0).imp (fun h => h.1)
  · exact (buildSlideIndexAux_sorted t cfg nb 0 0).imp (fun h => h.2)
  · intro e he
    obtain ⟨j, c, hget, hidx, hsp, hty, -⟩ := buildSlideIndexAux_mem t cfg nb 0 0 e he
    refine ⟨c, ?_, hsp, hty⟩
    rw [hidx]
    simpa using hget

/-- C6 witness: the invariants instantiated on the worked example, with
the membership hypothesis discharged at the entry `⟨2, 2⟩`. -/
theorem buildSlideIndex_invariants_witness :
    ∃ c, fiveCellDoc.get? 2 = some c ∧ isSpacerCell c = false ∧
      ∃ st, getSlideType c.metadata = some st ∧ st ∈ TargetSet.slideTargets.types :=
  (buildSlideIndex_invariants fiveCellDoc TargetSet.slideTargets defaultConfig).2.2
    ⟨2, 2⟩ (by decide)

-- ---------------------------------------------------------------------
-- C7
-- ---------------------------------------------------------------------

/-- C7: each entry's ordinal is the count of retained slide/subslide
boundaries among the cells up to and including the entry's cell,
clamped to a minimum of 1 (so fragments report the ordinal of the most
recent boundary, and a fragment before any boundary reports 1); and on
the worked five-cell document the slide-granularity index is positions
0, 2, 4 with ordinals 1, 2, 3 while the fragment-granularity index is
positions 0, 1, 2, 4 with ordinals 1, 1, 2, 3. -/
theorem slide_ordinal_semantics :
    (∀ (nb : Notebook) (t : TargetSet) (cfg : Config),
      ∀ e ∈ buildSlideIndex nb t cfg,
        e.slideNumber =
          clampOne ((nb.take (e.cellIndex + 1)).countP (isRetainedBoundary t cfg))) ∧
    buildSlideIndex fiveCellDoc TargetSet.slideTargets defaultConfig =
      [⟨0, 1⟩, ⟨2, 2⟩, ⟨4, 3⟩] ∧
    buildSlideIndex fiveCellDoc TargetSet.fragmentTargets defaultConfig =
      [⟨0, 1⟩, ⟨1, 1⟩, ⟨2, 2⟩, ⟨4, 3⟩] := by
  refine ⟨?_, by decide, by decide⟩
  intro nb t cfg e he
  obtain ⟨j, c, hget, hidx, -, -, hord⟩ := buildSlideIndexAux_mem t cfg nb 0 0 e he
  rw [hord, hidx]
  simp

/-- C7 witness: the ordinal characterization instantiated at the entry
`⟨2, 2⟩` of the worked example's slide-granularity index. -/
theorem slide_ordinal_semantics_witness :
    (SlideIndex.mk 2 2).slideNumber =
      clampOne ((fiveCellDoc.take 3).countP
        (isRetainedBoundary TargetSet.slideTargets defaultConfig)) :=
  slide_ordinal_semantics.1 fiveCellDoc TargetSet.slideTargets defaultConfig
    ⟨2, 2⟩ (by decide)

-- ---------------------------------------------------------------------
-- Cell-insertion lemmas
-- ---------------------------------------------------------------------

lemma insertCellAt_length (c : Cell) :
    ∀ (p : Nat) (l : List Cell), (insertCellAt c p l).length = l.length + 1
  | 0, _ => rfl
  | _ + 1, [] => rfl
  | p + 1, x :: xs => by
    simp [insertCellAt, insertCellAt_length c p xs]

lemma insertCellAt_filter (c : Cell) (P : Cell → Bool) (hc : P c = false) :
    ∀ (p : Nat) (l : List Cell), (insertCellAt c p l).filter P = l.filter P
  | 0, l => by simp [insertCellAt, List.filter_cons, hc]
  | _ + 1, [] => by simp [insertCellAt, List.filter_cons, hc]
  | p + 1, x :: xs => by
    simp only [insertCellAt, List.filter_cons, insertCellAt_filter c P hc p xs]

lemma insertCellAt_get_self (c : Cell) :
    ∀ (p : Nat) (l : List Cell), p ≤ l.length → (insertCellAt c p l).get? p = some c
  | 0, _, _ => rfl
  | _ + 1, [], h => by simp at h
  | p + 1, x :: xs, h => by
    simpa [insertCellAt] using insertCellAt_get_self c p xs (by simpa using h)

lemma insertCellAt_get_lt (c : Cell) :
    ∀ (p i : Nat) (l : List Cell), i < p → p ≤ l.length →
      (insertCellAt c p l).get? i = l.get? i
  | 0, i, _, h, _ => by omega
  | _ + 1, _, [], _, hl => by simp at hl
  | _ + 1, 0, _ :: _, _, _ => rfl
  | p + 1, i + 1, x :: xs, h, hl => by
    simpa [insertCellAt] using
      insertCellAt_get_lt c p i xs (by omega) (by simpa using hl)

lemma insertCellAt_get_ge (c : Cell) :
    ∀ (p i : Nat) (l : List Cell), p ≤ i →
      (insertCellAt c p l).get? (i + 1) = l.get? i
  | 0, i, l, _ => by simp [insertCellAt]
  | _ + 1, 0, _, h => by omega
  | _ + 1, _ + 1, [], _ => by simp [insertCellAt]
  | p + 1, i + 1, x :: xs, h => by
    simpa [insertCellAt] using insertCellAt_get_ge c p i xs (by omega)

/-- Sequentially applying the bottom-to-top insertion batch grows the
document by one cell per position. -/
lemma foldr_insert_length (sp : Cell) :
    ∀ (ps : List Nat) (nb : List Cell),
      (ps.foldr (fun p d => insertCellAt sp p d) nb).length = nb.length + ps.length
  | [], _ => rfl
  | p :: ps, nb => by
    simp only [List.foldr_cons, insertCellAt_length, foldr_insert_length sp ps nb,
      List.length_cons]
    omega

/-- Filtering away the inserted kind of cell undoes the whole batch. -/
lemma foldr_insert_filter (sp : Cell) (P : Cell → Bool) (hsp : P sp = false) :
    ∀ (ps : List Nat) (nb : List Cell),
      (ps.foldr (fun p d => insertCellAt sp p d) nb).filter P = nb.filter P
  | [], _ => rfl
  | p :: ps, nb => by
    simp only [List.foldr_cons, insertCellAt_filter sp P hsp,
      foldr_insert_filter sp P hsp ps nb]

/-- Cells strictly before every insertion position are untouched. -/
lemma foldr_insert_get_low (sp : Cell) :
    ∀ (ps : List Nat) (nb : List Cell) (i : Nat),
      (∀ p ∈ ps, p ≤ nb.length) → (∀ p ∈ ps, i < p) →
      (ps.foldr (fun p d => insertCellAt sp p d) nb).get? i = nb.get? i
  | [], _, _, _, _ => rfl
  | p :: ps, nb, i, hb, hi => by
    simp only [List.foldr_cons]
    rw [insertCellAt_get_lt sp p i _ (hi p (List.mem_cons_self p ps)) (by
      rw [foldr_insert_length]
      have := hb p (List.mem_cons_self p ps)
      omega)]
    exact foldr_insert_get_low sp ps nb i
      (fun q hq => hb q (List.mem_cons_of_mem p hq))
      (fun q hq => hi q (List.mem_cons_of_mem p hq))

/-- After the batch, the `t`-th insertion position holds the inserted
cell (shifted right by the `t` insertions made before it) and is
followed immediately by the cell that originally sat at that
position. -/
lemma foldr_insert_spec (sp : Cell) :
    ∀ (ps : List Nat) (nb : List Cell),
      ps.Pairwise (fun a b => a < b) → (∀ p ∈ ps, p ≤ nb.length) →
      ∀ (t q : Nat), ps.get? t = some q →
        (ps.foldr (fun p d => insertCellAt sp p d) nb).get? (q + t) = some sp ∧
        (ps.foldr (fun p d => insertCellAt sp p d) nb).get? (q + t + 1) = nb.get? q
  | [], _, _, _, t, q, hq => by simp at hq
  | p :: ps, nb, hs, hb, 0, q, hq => by
    have hpq : q = p := by simpa using hq.symm
    subst hpq
    have hple : q ≤ nb.length := hb q (List.mem_cons_self q ps)
    have hlen : q ≤ (ps.foldr (fun p d => insertCellAt sp p d) nb).length := by
      rw [foldr_insert_length]
      omega
    refine ⟨?_, ?_⟩
    · simpa using insertCellAt_get_self sp q _ hlen
    · rw [List.foldr_cons, insertCellAt_get_ge sp q q _ (le_refl q)]
      exact foldr_insert_get_low sp ps nb q
        (fun r hr => hb r (List.mem_cons_of_mem q hr))
        (fun r hr => (List.pairwise_cons.mp hs).1 r hr)
  | p :: ps, nb, hs, hb, t + 1, q, hq => by
    have hq' : ps.get? t = some q := by simpa using hq
    have hmem : q ∈ ps := List.get?_mem hq'
    have hpq : p < q := (List.pairwise_cons.mp hs).1 q hmem
    have ih := foldr_insert_spec sp ps nb (List.pairwise_cons.mp hs).2
      (fun r hr => hb r (List.mem_cons_of_mem p hr)) t q hq'
    refine ⟨?_, ?_⟩
    · show ((p :: ps).foldr (fun p d => insertCellAt sp p d) nb).get? ((q + t) + 1) = some sp
      rw [List.foldr_cons, insertCellAt_get_ge sp p (q + t) _ (by omega)]
      exact ih.1
    · show ((p :: ps).foldr (fun p d => insertCellAt sp p d) nb).get? ((q + t + 1) + 1) = nb.get? q
      rw [List.foldr_cons, insertCellAt_get_ge sp p (q + t + 1) _ (by omega)]
      exact ih.2

/-- The synthetic spacer cell carries the spacer marker. -/
lemma isSpacerCell_createSpacerCellData (lines : Nat) :
    isSpacerCell (createSpacerCellData lines) = true := rfl

/-- Removing all spacer cells after inserting spacers is the same as
removing them without inserting. -/
lemma removeSpacers_insertSpacers (cfg : Config) (nb : Notebook) :
    removeSpacers (insertSpacers cfg nb) = removeSpacers nb := by
  rw [insertSpacers]
  split
  · rfl
  · exact foldr_insert_filter _ _
      (by simp [isSpacerCell_createSpacerCellData]) _ _

/-- A document without spacer cells is untouched by spacer removal. -/
lemma removeSpacers_eq_self {nb : Notebook}
    (h : nb.all (fun c => !(isSpacerCell c)) = true) : removeSpacers nb = nb := by
  rw [removeSpacers, List.filter_eq_self]
  intro a ha
  exact List.all_eq_true.mp h a ha

/-- Spacer removal leaves zero spacer cells behind. -/
lemma countP_removeSpacers (nb : Notebook) :
    (removeSpacers nb).countP (fun c => isSpacerCell c) = 0 := by
  rw [removeSpacers, List.countP_eq_zero]
  intro a ha
  have := (List.mem_filter.mp ha).2
  simp at this
  simp [this]

-- ---------------------------------------------------------------------
-- C9
-- ---------------------------------------------------------------------

/-- C9: on a document in which no user cell carries the spacer marker,
toggling slide view on and then off restores exactly the original cell
sequence (kind, content, language and metadata included) and returns
the flag to `false`. -/
theorem toggle_roundtrip (cfg : Config) (nb : Notebook)
    (h : nb.all (fun c => !(isSpacerCell c)) = true) :
    toggleSlideView cfg (toggleSlideView cfg ⟨nb, false⟩) = ⟨nb, false⟩ := by
  have h1 : toggleSlideView cfg ⟨nb, false⟩ = ⟨insertSpacers cfg nb, true⟩ := rfl
  rw [h1]
  show (⟨removeSpacers (insertSpacers cfg nb), false⟩ : ViewState) = ⟨nb, false⟩
  rw [removeSpacers_insertSpacers, removeSpacers_eq_self h]

/-- C9 witness: the toggle round-trip on a concrete two-slide document. -/
theorem toggle_roundtrip_witness :
    toggleSlideView defaultConfig (toggleSlideView defaultConfig ⟨twoSlideDoc, false⟩) =
      ⟨twoSlideDoc, false⟩ :=
  toggle_roundtrip defaultConfig twoSlideDoc (by decide)

-- ---------------------------------------------------------------------
-- C1
-- ---------------------------------------------------------------------

/-- C1: if slide view is on when a save occurs, the will-save handler
leaves zero spacer cells in the document that gets persisted; and for a
document whose spacers were produced by the lifecycle itself (the
in-memory document is `insertSpacers` of a spacer-free document), the
did-save handler rebuilds exactly the pre-save document — spacers at
the same boundary positions — and clears the pending mark. -/
theorem save_roundtrip :
    (∀ s : SaveState, s.active = true →
      (willSave s).doc.countP (fun c => isSpacerCell c) = 0) ∧
    (∀ (cfg : Config) (d0 : Notebook), d0.all (fun c => !(isSpacerCell c)) = true →
      didSave cfg (willSave ⟨insertSpacers cfg d0, true, false⟩) =
        ⟨insertSpacers cfg d0, true, false⟩) := by
  constructor
  · intro s hs
    rw [willSave, if_pos hs]
    exact countP_removeSpacers s.doc
  · intro cfg d0 h0
    show didSave cfg ⟨removeSpacers (insertSpacers cfg d0), true, true⟩ = _
    rw [removeSpacers_insertSpacers, removeSpacers_eq_self h0]
    rfl

/-- C1 witness: the save round-trip on a concrete two-slide document
with slide view on. -/
theorem save_roundtrip_witness :
    (willSave ⟨insertSpacers defaultConfig twoSlideDoc, true, false⟩).doc.countP
      (fun c => isSpacerCell c) = 0 ∧
    didSave defaultConfig
        (willSave ⟨insertSpacers defaultConfig twoSlideDoc, true, false⟩) =
      ⟨insertSpacers defaultConfig twoSlideDoc, true, false⟩ :=
  ⟨save_roundtrip.1 ⟨insertSpacers defaultConfig twoSlideDoc, true, false⟩ rfl,
   save_roundtrip.2 defaultConfig twoSlideDoc (by decide)⟩

-- ---------------------------------------------------------------------
-- C3
-- ---------------------------------------------------------------------

/-- C3 counterexample: on a document whose slide-granularity index has
exactly one entry, toggling slide view on inserts nothing — but it sets
`spacerActive` to `true`, not `false` as the claim states
(`toggleSlideView` runs `slideViewState.set(uri, true)` unconditionally
after `insertSpacers` returns, extension.ts 466-467). -/
theorem toggle_on_one_entry_counterexample :
    (buildSlideIndex oneSlideDoc TargetSet.slideTargets defaultConfig).length = 1 ∧
    (toggleSlideView defaultConfig ⟨oneSlideDoc, false⟩).doc = oneSlideDoc ∧
    (toggleSlideView defaultConfig ⟨oneSlideDoc, false⟩).spacerActive = true := by
  exact ⟨by decide, rfl, rfl⟩

/-- C3 amended: toggling spacer view on a document whose
slide-granularity index has at most one entry inserts no cells, but
still flips `spacerActive` to `true`. -/
theorem toggle_on_small_index_sets_flag (cfg : Config) (nb : Notebook)
    (h : (buildSlideIndex nb TargetSet.slideTargets cfg).length ≤ 1) :
    toggleSlideView cfg ⟨nb, false⟩ = ⟨nb, true⟩ := by
  show (⟨insertSpacers cfg nb, true⟩ : ViewState) = ⟨nb, true⟩
  rw [insertSpacers]
  rw [if_pos h]

/-- C3 witness: the amended behaviour at the concrete one-entry
document. -/
theorem toggle_on_small_index_sets_flag_witness :
    toggleSlideView defaultConfig ⟨oneSlideDoc, false⟩ = ⟨oneSlideDoc, true⟩ :=
  toggle_on_small_index_sets_flag defaultConfig oneSlideDoc (by decide)

-- ---------------------------------------------------------------------
-- C4
-- ---------------------------------------------------------------------

/-- C4 counterexample: when the collaborator rejects the atomic insert
batch by resolving `applyEdit` to `false` (the host's failure signal),
`toggleSlideView` still flips `spacerActive` to `true` — the source
never reads the boolean result — so the flag disagrees with the
document, which contains zero spacer cells. -/
theorem toggle_edit_failed_flips_flag :
    toggleSlideViewTry defaultConfig EditResult.failed ⟨twoSlideDoc, false⟩ =
      Except.ok ⟨twoSlideDoc, true⟩ ∧
    twoSlideDoc.countP (fun c => isSpacerCell c) = 0 :=
  ⟨rfl, by decide⟩

/-- C4 amended: only a rejected (thrown) `applyEdit` promise prevents
the flag flip — the exception propagates out of the lifecycle operation
before `slideViewState.set` runs; a failure reported as a `false`
resolution is not checked and flips the flag anyway. -/
theorem toggle_edit_throw_no_flip :
    (∀ (cfg : Config) (s : ViewState), s.spacerActive = false →
      2 ≤ (buildSlideIndex s.doc TargetSet.slideTargets cfg).length →
      toggleSlideViewTry cfg EditResult.threw s = Except.error ()) ∧
    (∀ (cfg : Config) (s : ViewState), s.spacerActive = true →
      ¬(s.doc.all (fun c => !(isSpacerCell c)) = true) →
      toggleSlideViewTry cfg EditResult.threw s = Except.error ()) := by
  constructor
  · intro cfg s hs h2
    rw [toggleSlideViewTry, if_neg (by simp [hs])]
    rw [insertSpacersTry, if_neg (by omega)]
  · intro cfg s hs hsome
    rw [toggleSlideViewTry, if_pos hs]
    rw [removeSpacersTry, if_neg hsome]

/-- C4 witness: a thrown edit on a concrete two-slide document aborts
the toggle without flipping the flag. -/
theorem toggle_edit_throw_no_flip_witness :
    toggleSlideViewTry defaultConfig EditResult.threw ⟨twoSlideDoc, false⟩ =
      Except.error () :=
  toggle_edit_throw_no_flip.1 defaultConfig ⟨twoSlideDoc, false⟩ rfl (by decide)

-- ---------------------------------------------------------------------
-- C5
-- ---------------------------------------------------------------------

/-- C5 counterexample: when a document containing a marked spacer cell
becomes active, the `onDidChangeActiveNotebookEditor` handler only
refreshes the status bar — the document keeps its orphaned spacer cell,
contradicting the claim that the scan runs "whenever a document becomes
active". The orphan scan exists only in the `activate` body. -/
theorem active_change_no_orphan_scan_counterexample :
    activeEditorChangedDocEffect orphanDoc = orphanDoc ∧
    ¬((activeEditorChangedDocEffect orphanDoc).countP
        (fun c => isSpacerCell c) = 0) :=
  ⟨rfl, by decide⟩

/-- C5 amended: the orphan scan runs once, at activation, on the active
notebook only; it removes every marked spacer cell unconditionally,
without consulting the per-document view state (so an unset
`spacerActive` cannot make it fail — the scan is a total function of
the document alone). Later active-document changes do not re-run it. -/
theorem activation_orphan_scan_removes (nb : Notebook) :
    (activationOrphanScan nb).countP (fun c => isSpacerCell c) = 0 ∧
    activationOrphanScan nb = removeSpacers nb := by
  constructor
  · rw [activationOrphanScan]
    split
    · exact countP_removeSpacers nb
    · next h =>
      rw [List.countP_eq_zero]
      intro a ha
      simp only [List.any_eq_true, not_exists, not_and] at h
      have := h a ha
      simpa using this
  · rw [activationOrphanScan]
    split
    · rfl
    · next h =>
      rw [removeSpacers, Eq.comm, List.filter_eq_self]
      intro a ha
      simp only [List.any_eq_true, not_exists, not_and] at h
      have := h a ha
      simpa using this

-- ---------------------------------------------------------------------
-- C2
-- ---------------------------------------------------------------------

lemma buildSlideIndex_sorted_lt (nb : Notebook) (t : TargetSet) (cfg : Config) :
    (buildSlideIndex nb t cfg).Pairwise (fun a b => a.cellIndex < b.cellIndex) :=
  (buildSlideIndexAux_sorted t cfg nb 0 0).imp (fun h => h.1)

lemma buildSlideIndex_pos_lt (nb : Notebook) (t : TargetSet) (cfg : Config) :
    ∀ e ∈ buildSlideIndex nb t cfg, e.cellIndex < nb.length := by
  intro e he
  obtain ⟨j, c, hget, hidx, -, -, -⟩ := buildSlideIndexAux_mem t cfg nb 0 0 e he
  obtain ⟨hj, -⟩ := List.get?_eq_some.mp hget
  omega

/-- C2 counterexample: on a concrete two-slide document (one gap), the
toggle inserts exactly one cell, not the two-cell filler + sentinel
pair the claim describes — `insertSpacers` pushes a single
`createSpacerCellData` cell per boundary (extension.ts 417-422; no
sentinel cell exists in the source). -/
theorem insertSpacers_pair_counterexample :
    (insertSpacers defaultConfig twoSlideDoc).length = twoSlideDoc.length + 1 ∧
    ¬((insertSpacers defaultConfig twoSlideDoc).length = twoSlideDoc.length + 2) :=
  ⟨by decide, by decide⟩

/-- C2 amended: for every document whose slide-granularity index has at
least two entries, toggling spacer view on inserts, before every
boundary entry except the first, a single spacer (filler) cell
immediately adjacent to and above the slide cell — each inserted gap
occupies one position, so the document grows by the number of entries
minus one — with insertions processed from the last boundary entry to
the first. After the batch, the `j`-th boundary cell (j ≥ 1) has
shifted to position `cellIndex + j` and the cell directly above it is
the spacer. -/
theorem insertSpacers_single_cell_per_gap (cfg : Config) (nb : Notebook)
    (h2 : 2 ≤ (buildSlideIndex nb TargetSet.slideTargets cfg).length) :
    (insertSpacers cfg nb).length =
      nb.length + ((buildSlideIndex nb TargetSet.slideTargets cfg).length - 1) ∧
    ∀ (j : Nat) (e : SlideIndex),
      (buildSlideIndex nb TargetSet.slideTargets cfg).get? j = some e → 1 ≤ j →
      (insertSpacers cfg nb).get? (e.cellIndex + (j - 1)) =
        some (createSpacerCellData cfg.slideViewSpacerLines) ∧
      (insertSpacers cfg nb).get? (e.cellIndex + j) = nb.get? e.cellIndex := by
  have hIns : insertSpacers cfg nb =
      (((buildSlideIndex nb TargetSet.slideTargets cfg).drop 1).map
          (fun s => s.cellIndex)).foldr
        (fun p d => insertCellAt (createSpacerCellData cfg.slideViewSpacerLines) p d)
        nb := by
    rw [insertSpacers, if_neg (by omega)]
  have hsorted : (((buildSlideIndex nb TargetSet.slideTargets cfg).drop 1).map
      (fun s => s.cellIndex)).Pairwise (fun a b => a < b) := by
    rw [List.pairwise_map]
    exact (buildSlideIndex_sorted_lt nb TargetSet.slideTargets cfg).sublist
      (List.drop_sublist 1 _)
  have hbound : ∀ p ∈ ((buildSlideIndex nb TargetSet.slideTargets cfg).drop 1).map
      (fun s => s.cellIndex), p ≤ nb.length := by
    intro p hp
    obtain ⟨e, he, rfl⟩ := List.mem_map.mp hp
    have := buildSlideIndex_pos_lt nb TargetSet.slideTargets cfg e
      (List.mem_of_mem_drop he)
    omega
  constructor
  · rw [hIns, foldr_insert_length, List.length_map, List.length_drop]
  · intro j e hej hj1
    have hps : (((buildSlideIndex nb TargetSet.slideTargets cfg).drop 1).map
        (fun s => s.cellIndex)).get? (j - 1) = some e.cellIndex := by
      rw [List.get?_map, List.get?_drop]
      have hjj : 1 + (j - 1) = j := by omega
      rw [hjj, hej]
      rfl
    have spec := foldr_insert_spec (createSpacerCellData cfg.slideViewSpacerLines)
      _ nb hsorted hbound (j - 1) e.cellIndex hps
    refine ⟨by rw [hIns]; exact spec.1, ?_⟩
    have heq : e.cellIndex + (j - 1) + 1 = e.cellIndex + j := by omega
    rw [hIns, ← heq]
    exact spec.2

/-- C2 witness: the single-spacer insertion on a concrete two-slide
document, at the second boundary entry. -/
theorem insertSpacers_single_cell_per_gap_witness :
    (insertSpacers defaultConfig twoSlideDoc).length = twoSlideDoc.length + 1 ∧
    (insertSpacers defaultConfig twoSlideDoc).get? 1 =
      some (createSpacerCellData defaultConfig.slideViewSpacerLines) ∧
    (insertSpacers defaultConfig twoSlideDoc).get? 2 = twoSlideDoc.get? 1 := by
  have h := insertSpacers_single_cell_per_gap defaultConfig twoSlideDoc (by decide)
  have h2 := h.2 1 ⟨1, 2⟩ (by decide) (by decide)
  exact ⟨h.1, h2.1, h2.2⟩

-- ---------------------------------------------------------------------
-- C10
-- ---------------------------------------------------------------------

/-- In a position-sorted index, the first entry strictly beyond entry
`j` is entry `j + 1`. -/
lemma find_gt_sorted :
    ∀ (l : List SlideIndex), l.Pairwise (fun a b => a.cellIndex < b.cellIndex) →
      ∀ (j : Nat) (e enext : SlideIndex), l.get? j = some e →
        l.get? (j + 1) = some enext →
        l.find? (fun s => decide (e.cellIndex < s.cellIndex)) = some enext
  | [], _, j, e, _, he, _ => by simp at he
  | a :: rest, hp, 0, e, enext, he, hnext => by
    have hea : a = e := by simpa using he
    have hnext' : rest.get? 0 = some enext := by simpa using hnext
    cases rest with
    | nil => simp at hnext'
    | cons b rest' =>
      have hbe : b = enext := by simpa using hnext'
      have hab : a.cellIndex < b.cellIndex :=
        (List.pairwise_cons.mp hp).1 b (List.mem_cons_self b rest')
      rw [List.find?_cons_of_neg _ (by rw [← hea]; simp),
        List.find?_cons_of_pos _ (by
          rw [← hea]
          simp only [decide_eq_true_eq]
          omega),
        hbe]
  | a :: rest, hp, j + 1, e, enext, he, hnext => by
    have he' : rest.get? j = some e := by simpa using he
    have hnext' : rest.get? (j + 1) = some enext := by simpa using hnext
    have hae : a.cellIndex < e.cellIndex :=
      (List.pairwise_cons.mp hp).1 e (List.get?_mem he')
    rw [List.find?_cons_of_neg _ (by simp only [decide_eq_true_eq]; omega)]
    exact find_gt_sorted rest (List.pairwise_cons.mp hp).2 j e enext he' hnext'

lemma findFromEnd_eq_none (p : SlideIndex → Bool) :
    ∀ (l : List SlideIndex), (∀ x ∈ l, p x = false) → findFromEnd p l = none
  | [], _ => rfl
  | a :: rest, h => by
    rw [findFromEnd,
      findFromEnd_eq_none p rest (fun x hx => h x (List.mem_cons_of_mem a hx))]
    simp [h a (List.mem_cons_self a rest)]

lemma sorted_first_le (l : List SlideIndex)
    (hp : l.Pairwise (fun a b => a.cellIndex < b.cellIndex))
    (a : SlideIndex) (ha : l.get? 0 = some a) :
    ∀ x ∈ l, a.cellIndex ≤ x.cellIndex := by
  cases l with
  | nil => simp at ha
  | cons b rest =>
    obtain rfl : b = a := by simpa using ha
    intro x hx
    rcases List.mem_cons.mp hx with rfl | hx'
    · exact le_refl _
    · exact le_of_lt ((List.pairwise_cons.mp hp).1 x hx')

/-- In a position-sorted index, the backwards scan for the last entry
strictly before entry `j + 1` finds entry `j`. -/
lemma findFromEnd_lt_sorted :
    ∀ (l : List SlideIndex), l.Pairwise (fun a b => a.cellIndex < b.cellIndex) →
      ∀ (j : Nat) (e enext : SlideIndex), l.get? j = some e →
        l.get? (j + 1) = some enext →
        findFromEnd (fun s => decide (s.cellIndex < enext.cellIndex)) l = some e
  | [], _, j, e, _, he, _ => by simp at he
  | a :: rest, hp, 0, e, enext, he, hnext => by
    have hea : a = e := by simpa using he
    have hnext' : rest.get? 0 = some enext := by simpa using hnext
    have hnone : findFromEnd (fun s => decide (s.cellIndex < enext.cellIndex))
        rest = none := by
      apply findFromEnd_eq_none
      intro x hx
      have := sorted_first_le rest (List.pairwise_cons.mp hp).2 enext hnext' x hx
      exact decide_eq_false (by omega)
    rw [findFromEnd, hnone]
    have hlt : a.cellIndex < enext.cellIndex :=
      (List.pairwise_cons.mp hp).1 enext (List.get?_mem hnext')
    rw [hea] at hlt
    simp [hea, hlt]
  | a :: rest, hp, j + 1, e, enext, he, hnext => by
    have he' : rest.get? j = some e := by simpa using he
    have hnext' : rest.get? (j + 1) = some enext := by simpa using hnext
    rw [findFromEnd,
      findFromEnd_lt_sorted rest (List.pairwise_cons.mp hp).2 j e enext he' hnext']

/-- C10 counterexample: in a document with slides at positions 0 and 5,
starting from position 2 (which is not the last slide), advance jumps
to 5 and retreat then lands on 0, not back on 2 — the round trip fails
for current positions that are not themselves index entries. -/
theorem advance_retreat_counterexample :
    retreatSel TargetSet.slideTargets defaultConfig gappedDoc
        (advanceSel TargetSet.slideTargets defaultConfig gappedDoc 2) = 0 ∧
    ¬(retreatSel TargetSet.slideTargets defaultConfig gappedDoc
        (advanceSel TargetSet.slideTargets defaultConfig gappedDoc 2) = 2) :=
  ⟨by decide, by decide⟩

/-- C10 amended: advance followed by retreat (slide granularity)
returns to the original position whenever the current position is
itself a slide-index entry that is not the last entry: advance moves to
the next entry, and retreat from there moves back. -/
theorem advance_retreat_roundtrip (cfg : Config) (nb : Notebook) (j : Nat)
    (e enext : SlideIndex)
    (he : (buildSlideIndex nb TargetSet.slideTargets cfg).get? j = some e)
    (hnext : (buildSlideIndex nb TargetSet.slideTargets cfg).get? (j + 1) = some enext) :
    advanceSel TargetSet.slideTargets cfg nb e.cellIndex = enext.cellIndex ∧
    retreatSel TargetSet.slideTargets cfg nb
      (advanceSel TargetSet.slideTargets cfg nb e.cellIndex) = e.cellIndex := by
  have hsorted := buildSlideIndex_sorted_lt nb TargetSet.slideTargets cfg
  have hne : ¬((buildSlideIndex nb TargetSet.slideTargets cfg).length = 0) := by
    intro h0
    rw [List.length_eq_zero] at h0
    rw [h0] at he
    simp at he
  have hadv : advanceSel TargetSet.slideTargets cfg nb e.cellIndex =
      enext.cellIndex := by
    simp only [advanceSel, nextSlidePos]
    rw [if_neg hne, find_gt_sorted _ hsorted j e enext he hnext]
    rfl
  refine ⟨hadv, ?_⟩
  rw [hadv]
  simp only [retreatSel, prevSlidePos]
  rw [if_neg hne, findFromEnd_lt_sorted _ hsorted j e enext he hnext]
  rfl

/-- C10 witness: the round trip from the first slide of the concrete
gapped document. -/
theorem advance_retreat_roundtrip_witness :
    advanceSel TargetSet.slideTargets defaultConfig gappedDoc 0 = 5 ∧
    retreatSel TargetSet.slideTargets defaultConfig gappedDoc
      (advanceSel TargetSet.slideTargets defaultConfig gappedDoc 0) = 0 := by
  have h := advance_retreat_roundtrip defaultConfig gappedDoc 0 ⟨0, 1⟩ ⟨5, 2⟩
    (by decide) (by decide)
  exact ⟨h.1, h.2⟩

end JupyterSlideNav
